import Mathlib

/-!
Shallow embedding of `rqt_py_trees/src/rqt_py_trees/dotcode_behaviour.py`
(class `RosBehaviourTreeDotcodeGenerator`), the tree-to-graph projection
engine of this repository, together with proofs of its specification.

Modelling conventions:
* Behaviour ids are `uuid_msgs` values in the source and are only ever used
  through `str(...)`; ids are modelled as their stringified form (`String`),
  so `str` is the identity.
* The enumeration constants come from the external message package
  `py_trees_msgs.msg.Behaviour`; they are modelled from the spec as distinct
  natural-number constants (the message file's values).
* The rendering backend (`dotcode_factory`) builds a graph through
  `get_graph` / `add_node_to_graph` / `add_edge_to_graph`; the abstract
  graph is modelled as the exact record of those calls, in call order, and
  `create_dot` as the pair of the backend's identity with the graph handed
  to it.  Backend objects are compared by identity in the source, so a
  backend is modelled by a `Nat` identity.
* Python floats (`ranksep`) appear only in equality comparisons, never in
  arithmetic; they are modelled as rationals.
* A Python exception (the `KeyError` on a dangling child id, or an attribute
  access on `None`) is modelled as `Option.none`.
-/

/-- Modelled from the spec: behaviour-type constant of the external
`py_trees_msgs.msg.Behaviour` message (`BEHAVIOUR`). -/
def BEHAVIOUR : Nat := 0

/-- Modelled from the spec: behaviour-type constant `SEQUENCE`. -/
def SEQUENCE : Nat := 1

/-- Modelled from the spec: behaviour-type constant `SELECTOR`. -/
def SELECTOR : Nat := 2

/-- Modelled from the spec: behaviour-status constant `INVALID`. -/
def INVALID : Nat := 1

/-- Modelled from the spec: behaviour-status constant `RUNNING`. -/
def RUNNING : Nat := 2

/-- Modelled from the spec: behaviour-status constant `SUCCESS`. -/
def SUCCESS : Nat := 3

/-- Modelled from the spec: behaviour-status constant `FAILURE`. -/
def FAILURE : Nat := 4

/-- One behaviour-node record of the input snapshot (the fields of the
external `py_trees_msgs.msg.Behaviour` message that the generator reads).
`own_id` and the entries of `child_ids` are stringified uuids. -/
structure Behaviour where
  own_id : String
  name : String
  type : Nat
  status : Nat
  child_ids : List String
  class_name : String
  message : String
deriving DecidableEq, Repr

/-- Python's `a or b` on an optional string: `None` and the empty string are
falsy and fall through to `b`. -/
def pyOr (a b : Option String) : Option String :=
  match a with
  | none => b
  | some s => if s.isEmpty then b else some s

/-- `type_to_shape` (dotcode_behaviour.py lines 89-101). -/
def type_to_shape (behaviour_type : Nat) : String :=
  if behaviour_type = BEHAVIOUR then "ellipse"
  else if behaviour_type = SEQUENCE then "box"
  else if behaviour_type = SELECTOR then "ellipse"
  else "box"

/-- `type_to_colour` (lines 103-111); `none` is Python `None`. -/
def type_to_colour (behaviour_type : Nat) : Option String :=
  if behaviour_type = BEHAVIOUR then none
  else if behaviour_type = SEQUENCE then some "#ff9900"
  else if behaviour_type = SELECTOR then some "#808080"
  else none

/-- `status_to_colour` (lines 113-123). -/
def status_to_colour (behaviour_status : Nat) : Option String :=
  if behaviour_status = INVALID then some "#e4e4e4"
  else if behaviour_status = RUNNING then some "#000000"
  else if behaviour_status = FAILURE then some "#ff0000"
  else if behaviour_status = SUCCESS then some "#00ff00"
  else none

/-- `type_to_string` (lines 125-133). -/
def type_to_string (behaviour_type : Nat) : Option String :=
  if behaviour_type = BEHAVIOUR then some "Behaviour"
  else if behaviour_type = SEQUENCE then some "Sequence"
  else if behaviour_type = SELECTOR then some "Selector"
  else none

/-- `status_to_string` (lines 135-145). -/
def status_to_string (behaviour_status : Nat) : Option String :=
  if behaviour_status = INVALID then some "Invalid"
  else if behaviour_status = RUNNING then some "Running"
  else if behaviour_status = FAILURE then some "Failure"
  else if behaviour_status = SUCCESS then some "Success"
  else none

/-- Python `str.replace(old, new)` for a one-character pattern, as used in
`attr.replace('_', ' ')`. -/
def pyReplaceChar (s : String) (old new : Char) : String :=
  String.mk (s.data.map (fun c => if c = old then new else c))

/-- Python `str.title()` on a character list: a cased character that follows
a non-cased one is uppercased, any other cased character is lowercased. -/
def pyTitleAux : Bool → List Char → List Char
  | _, [] => []
  | prevAlpha, c :: cs =>
    (if c.isAlpha then (if prevAlpha then c.toLower else c.toUpper) else c)
      :: pyTitleAux c.isAlpha cs

/-- Python `str.title()`. -/
def pyTitle (s : String) : String :=
  String.mk (pyTitleAux false s.data)

/-- One iteration of the loop in `behaviour_to_tooltip_string`
(lines 151-161): the text appended for attribute `attr`. -/
def tooltip_field (behaviour : Behaviour) (attr : String) : String :=
  let value : Option String :=
    if attr = "type" then type_to_string behaviour.type
    else if attr = "status" then status_to_string behaviour.status
    else if attr = "class_name" then some behaviour.class_name
    else some behaviour.message
  let value : String :=
    match value with
    | none => "<i>empty</i>"
    | some s => if s.isEmpty then "<i>empty</i>" else s
  "<b>" ++ pyTitle (pyReplaceChar attr '_' ' ') ++ ":</b> " ++ value ++ "<br>"

/-- `behaviour_to_tooltip_string` (lines 147-163). -/
def behaviour_to_tooltip_string (behaviour : Behaviour) : String :=
  let to_display := ["class_name", "type", "status", "message"]
  let string := to_display.foldl (fun acc attr => acc ++ tooltip_field behaviour attr) ""
  "\"" ++ string ++ "\""

/-- One visual node of the abstract graph: the argument record of one
`add_node_to_graph` backend call (`none` = argument left at its default). -/
structure VNode where
  id : String
  nodelabel : Option String
  shape : Option String
  color : Option String
  tooltip : Option String
deriving DecidableEq, Repr

/-- One directed edge: the argument record of one `add_edge_to_graph`
backend call; the colour is an RGB triple as in the source. -/
structure Edge where
  src : String
  dst : String
  color : Nat × Nat × Nat
deriving DecidableEq, Repr

/-- The abstract graph built through the backend: the `get_graph` arguments
plus the `add_node_to_graph` and `add_edge_to_graph` calls in call order. -/
structure Graph where
  rank : Option String
  rankdir : Option String
  ranksep : Option ℚ
  nodes : List VNode
  edges : List Edge
deriving DecidableEq, Repr

/-- Backend `get_graph(rank=..., rankdir=..., ranksep=...)`. -/
def get_graph (rank : Option String) (rankdir : Option String) (ranksep : Option ℚ) : Graph :=
  { rank := rank, rankdir := rankdir, ranksep := ranksep, nodes := [], edges := [] }

/-- Backend `add_node_to_graph(graph, id, nodelabel=, shape=, color=, tooltip=)`. -/
def add_node_to_graph (g : Graph) (node_id : String)
    (nodelabel shape color tooltip : Option String) : Graph :=
  { g with nodes := g.nodes ++ [{ id := node_id, nodelabel := nodelabel,
                                  shape := shape, color := color, tooltip := tooltip }] }

/-- Backend `add_edge_to_graph(graph, from, to, color=)`. -/
def add_edge_to_graph (g : Graph) (src dst : String) (color : Nat × Nat × Nat) : Graph :=
  { g with edges := g.edges ++ [{ src := src, dst := dst, color := color }] }

/-- The edge colour computed for a child status in the second pass of
`generate` (lines 190-197): default light gray, overridden for
`RUNNING`, `SUCCESS` and `FAILURE`. -/
def edgeColourOf (state : Nat) : Nat × Nat × Nat :=
  if state = RUNNING then (0, 0, 0)
  else if state = SUCCESS then (0, 255, 0)
  else if state = FAILURE then (255, 0, 0)
  else (224, 224, 224)

/-- The inner loop of `generate`'s second pass for one behaviour
(lines 188-202): one edge per entry of `child_ids`, in order; a lookup
miss in `states` is the Python `KeyError`, modelled as `none`. -/
def addEdgesFor (states : String → Option Nat) (behaviour : Behaviour)
    (g : Graph) : Option Graph :=
  behaviour.child_ids.foldlM (fun g child_id =>
    match states child_id with
    | none => none
    | some state =>
      some (add_edge_to_graph g behaviour.own_id child_id (edgeColourOf state))) g

/-- The dictionary assignment `states[str(behaviour.own_id)] = behaviour.status`
of `generate`'s first pass (line 185). -/
def statesStep (st : String → Option Nat) (behaviour : Behaviour) : String → Option Nat :=
  fun k => if k = behaviour.own_id then some behaviour.status else st k

/-- One iteration of `generate`'s first pass (lines 178-185): the
`add_node_to_graph` call for one behaviour, and the `states` assignment. -/
def pass1step (p : Graph × (String → Option Nat)) (behaviour : Behaviour) :
    Graph × (String → Option Nat) :=
  (add_node_to_graph p.1 behaviour.own_id
      (some behaviour.name)
      (some (type_to_shape behaviour.type))
      (pyOr (status_to_colour behaviour.status) (type_to_colour behaviour.type))
      (some (behaviour_to_tooltip_string behaviour)),
   statesStep p.2 behaviour)

/-- `generate` (lines 165-204): build the graph through the backend from the
snapshot `data`, using the generator's stored `rank`/`rankdir`/`ranksep`.
The first pass adds one visual node per behaviour and records each
behaviour's status in `states`; the second pass adds one edge per
(parent, child-id) pair, coloured from the child's status. -/
def generate (rank : Option String) (rankdir : Option String) (ranksep : Option ℚ)
    (data : List Behaviour) (timestamp : Nat) : Option Graph :=
  let graph := get_graph rank rankdir ranksep
  if data.length = 0 then
    some (add_node_to_graph graph "No behaviour data received" none none none none)
  else
    let p := data.foldl pass1step (graph, fun _ => none)
    data.foldlM (fun g behaviour => addEdgesFor p.2 behaviour g) p.1

/-- The `states` dictionary built by `generate`'s first pass, on its own:
stringified id to status, later assignments overwriting earlier ones. -/
def buildStates (data : List Behaviour) : String → Option Nat :=
  data.foldl statesStep (fun _ => none)

/-- The visual node that `generate` hands to the backend for one behaviour
(the `add_node_to_graph` arguments of lines 179-184). -/
def nodeOf (behaviour : Behaviour) : VNode :=
  { id := behaviour.own_id
    nodelabel := some behaviour.name
    shape := some (type_to_shape behaviour.type)
    color := pyOr (status_to_colour behaviour.status) (type_to_colour behaviour.type)
    tooltip := some (behaviour_to_tooltip_string behaviour) }

/-- The edge list `generate`'s second pass hands to the backend, given the
status lookup of the first pass (only meaningful when every lookup hits). -/
def edgesOf (states : String → Option Nat) (data : List Behaviour) : List Edge :=
  data.flatMap (fun behaviour => behaviour.child_ids.map (fun child_id =>
    { src := behaviour.own_id, dst := child_id,
      color := edgeColourOf ((states child_id).getD 0) }))

/-- The `drawing_args` dictionary of `generate_dotcode` (lines 68-72); the
backend is compared by identity, modelled as a `Nat`. -/
structure DrawArgs where
  dotcode_factory : Nat
  rank : Option String
  rankdir : String
  ranksep : ℚ
deriving DecidableEq, Repr

/-- The result of `create_dot`: the backend's identity paired with the graph
handed to it (the backend renders deterministically from the graph). -/
structure Dotcode where
  factory : Nat
  graph : Graph
deriving DecidableEq, Repr

/-- The mutable fields of `RosBehaviourTreeDotcodeGenerator` (lines 43-51);
every field starts out as Python `None` (`firstcall` as `True`). -/
structure GenState where
  last_drawargs : Option DrawArgs
  dotcode : Option Dotcode
  firstcall : Bool
  rank : Option String
  rankdir : Option String
  ranksep : Option ℚ
  graph : Option Graph
  dotcode_factory : Option Nat
deriving DecidableEq, Repr

/-- `__init__` (lines 43-51). -/
def initState : GenState :=
  { last_drawargs := none, dotcode := none, firstcall := true, rank := none,
    rankdir := none, ranksep := none, graph := none, dotcode_factory := none }

/-- The input tree snapshot: `tree.behaviours` and `tree.header.stamp`. -/
structure TreeMsg where
  behaviours : List Behaviour
  stamp : Nat
deriving DecidableEq, Repr

/-- `generate_dotcode` (lines 53-87): the caching facade.  On the first call
`force_refresh` is forced to true; the drawing-argument record is compared
to the cached one and, when different, cached together with its fields;
the graph is then rebuilt through `generate` from the stored configuration
and rendered with the stored backend, both being cached.  A `none` result
is a propagated Python exception (dangling child id, or a backend attribute
access on `None`). -/
def generate_dotcode (st : GenState) (dotcode_factory : Nat) (tree : TreeMsg)
    (rank : Option String) (ranksep : ℚ) (rankdir : String)
    (force_refresh : Bool) : Option (GenState × Dotcode) :=
  let force_refresh := if st.firstcall then true else force_refresh
  let st := if st.firstcall then { st with firstcall := false } else st
  let drawing_args : DrawArgs :=
    { dotcode_factory := dotcode_factory, rank := rank, rankdir := rankdir, ranksep := ranksep }
  let st :=
    if st.last_drawargs ≠ some drawing_args then
      { st with last_drawargs := some drawing_args,
                dotcode_factory := some dotcode_factory,
                rank := rank, rankdir := some rankdir, ranksep := some ranksep }
    else st
  match st.dotcode_factory with
  | none => none
  | some fac =>
    match generate st.rank st.rankdir st.ranksep tree.behaviours tree.stamp with
    | none => none
    | some g =>
      let dot : Dotcode := { factory := fac, graph := g }
      some ({ st with graph := some g, dotcode := some dot }, dot)

/-! ### Fold lemmas about the two passes of `generate` -/

lemma pass1_snd (data : List Behaviour) :
    ∀ (g : Graph) (st : String → Option Nat),
      (data.foldl pass1step (g, st)).2 = data.foldl statesStep st := by
  induction data with
  | nil => intro g st; rfl
  | cons b rest ih =>
    intro g st
    simp only [List.foldl_cons]
    exact ih _ _

lemma pass1_fst (data : List Behaviour) :
    ∀ (g : Graph) (st : String → Option Nat),
      (data.foldl pass1step (g, st)).1 = { g with nodes := g.nodes ++ data.map nodeOf } := by
  induction data with
  | nil => intro g st; simp
  | cons b rest ih =>
    intro g st
    simp only [List.foldl_cons, List.map_cons]
    rw [ih]
    simp [pass1step, add_node_to_graph, nodeOf]

lemma statesFold_none_iff (data : List Behaviour) (c : String) :
    ∀ st : String → Option Nat,
      data.foldl statesStep st c = none ↔ (st c = none ∧ ∀ b ∈ data, b.own_id ≠ c) := by
  induction data with
  | nil => intro st; simp
  | cons b rest ih =>
    intro st
    rw [List.foldl_cons, ih]
    unfold statesStep
    by_cases hc : c = b.own_id
    · subst hc
      simp
    · simp only [if_neg hc, List.mem_cons]
      constructor
      · rintro ⟨h1, h2⟩
        refine ⟨h1, ?_⟩
        rintro b' (rfl | hb')
        · exact fun h => hc h.symm
        · exact h2 b' hb'
      · rintro ⟨h1, h2⟩
        exact ⟨h1, fun b' hb' => h2 b' (Or.inr hb')⟩

lemma buildStates_none_iff (data : List Behaviour) (c : String) :
    buildStates data c = none ↔ ∀ b ∈ data, b.own_id ≠ c := by
  unfold buildStates
  rw [statesFold_none_iff]
  simp

lemma buildStates_isSome_iff (data : List Behaviour) (c : String) :
    (buildStates data c).isSome ↔ ∃ b ∈ data, b.own_id = c := by
  rw [← Option.ne_none_iff_isSome, ne_eq, buildStates_none_iff]
  push_neg
  simp only [ne_eq, not_not]

lemma addEdgesFor_eq (states : String → Option Nat) (behaviour : Behaviour) :
    ∀ g : Graph,
      addEdgesFor states behaviour g =
        if ∀ c ∈ behaviour.child_ids, (states c).isSome then
          some { g with edges := g.edges ++ behaviour.child_ids.map (fun c =>
            { src := behaviour.own_id, dst := c,
              color := edgeColourOf ((states c).getD 0) }) }
        else none := by
  obtain ⟨own, name, ty, stt, cids, cn, msg⟩ := behaviour
  induction cids with
  | nil => intro g; simp [addEdgesFor]
  | cons c cs ih =>
    intro g
    cases hc : states c with
    | none =>
      rw [if_neg]
      · simp [addEdgesFor, hc]
      · intro hall
        have := hall c (List.mem_cons_self c cs)
        simp [hc] at this
    | some s =>
      have hL : addEdgesFor states ⟨own, name, ty, stt, c :: cs, cn, msg⟩ g =
          addEdgesFor states ⟨own, name, ty, stt, cs, cn, msg⟩
            (add_edge_to_graph g own c (edgeColourOf s)) := by
        simp [addEdgesFor, hc]
      rw [hL, ih]
      by_cases hall : ∀ x ∈ cs, (states x).isSome
      · rw [if_pos hall, if_pos]
        · simp [add_edge_to_graph, hc, List.append_assoc]
        · intro x hx
          rcases List.mem_cons.mp hx with rfl | hx
          · simp [hc]
          · exact hall x hx
      · rw [if_neg hall, if_neg]
        intro hcons
        exact hall fun x hx => hcons x (List.mem_cons_of_mem _ hx)

lemma edgePass_eq (states : String → Option Nat) (data : List Behaviour) :
    ∀ g : Graph,
      data.foldlM (fun g behaviour => addEdgesFor states behaviour g) g =
        if ∀ b ∈ data, ∀ c ∈ b.child_ids, (states c).isSome then
          some { g with edges := g.edges ++ edgesOf states data }
        else none := by
  induction data with
  | nil => intro g; simp [edgesOf]
  | cons b rest ih =>
    intro g
    rw [List.foldlM_cons, addEdgesFor_eq]
    by_cases hb : ∀ c ∈ b.child_ids, (states c).isSome
    · rw [if_pos hb]
      simp only [Option.bind_eq_bind, Option.some_bind]
      rw [ih]
      by_cases hrest : ∀ b' ∈ rest, ∀ c ∈ b'.child_ids, (states c).isSome
      · rw [if_pos hrest, if_pos]
        · simp [edgesOf, List.append_assoc]
        · intro b' hb'
          rcases List.mem_cons.mp hb' with rfl | hb'
          · exact hb
          · exact hrest b' hb'
      · rw [if_neg hrest, if_neg]
        intro hall
        exact hrest fun b' hb' => hall b' (List.mem_cons_of_mem _ hb')
    · rw [if_neg hb]
      simp only [Option.bind_eq_bind, Option.none_bind]
      rw [if_neg]
      intro hall
      exact hb (hall b (List.mem_cons_self b rest))

lemma generate_eq_dite (rank rankdir : Option String) (ranksep : Option ℚ)
    (data : List Behaviour) (ts : Nat) (hne : data ≠ []) :
    generate rank rankdir ranksep data ts =
      if ∀ b ∈ data, ∀ c ∈ b.child_ids, (buildStates data c).isSome then
        some { rank := rank, rankdir := rankdir, ranksep := ranksep,
               nodes := data.map nodeOf, edges := edgesOf (buildStates data) data }
      else none := by
  simp only [generate]
  rw [if_neg (by simpa using hne), pass1_snd, pass1_fst, edgePass_eq]
  simp [get_graph]
  rfl

lemma pyOr_status (s : Nat) (t : Option String) :
    pyOr (status_to_colour s) t =
      (match status_to_colour s with
       | some c => some c
       | none => t) := by
  unfold status_to_colour
  split_ifs <;> rfl

/-- C6: for the empty node collection, `generate` succeeds and returns a
graph with exactly one node (the informational placeholder) and no edges,
whatever the `rank`, `rankdir` and `ranksep` configuration values are. -/
theorem generate_empty_placeholder (rank rankdir : Option String) (ranksep : Option ℚ)
    (ts : Nat) :
    ∃ g, generate rank rankdir ranksep ([] : List Behaviour) ts = some g ∧
      g.nodes = [{ id := "No behaviour data received", nodelabel := none, shape := none,
                   color := none, tooltip := none }] ∧
      g.nodes.length = 1 ∧ g.edges = [] := by
  refine ⟨_, rfl, ?_, ?_, ?_⟩ <;> simp [generate, get_graph, add_node_to_graph]

/-- C9: the shape classifier is total over all type values: `"box"` for
`SEQUENCE`, `"ellipse"` for the other recognized types (`BEHAVIOUR` and
`SELECTOR`), and `"box"` for every unrecognized value; it always returns
one of the two shapes, never an error. -/
theorem type_to_shape_total (t : Nat) :
    (type_to_shape t = "box" ∨ type_to_shape t = "ellipse") ∧
    type_to_shape t =
      (if t = SEQUENCE then "box"
       else if t = BEHAVIOUR ∨ t = SELECTOR then "ellipse"
       else "box") := by
  unfold type_to_shape
  by_cases h0 : t = BEHAVIOUR <;> by_cases h1 : t = SEQUENCE <;> by_cases h2 : t = SELECTOR <;>
    simp_all [BEHAVIOUR, SEQUENCE, SELECTOR]

/-- C10: the `force_refresh` argument of `generate_dotcode` never influences
the returned rendered description, the backend calls, or the resulting
cache state: two runs differing only in that flag agree on output and
final state, from any cache state. -/
theorem force_refresh_inert (st : GenState) (f : Nat) (tree : TreeMsg)
    (rank : Option String) (ranksep : ℚ) (rankdir : String) (a b : Bool) :
    generate_dotcode st f tree rank ranksep rankdir a =
      generate_dotcode st f tree rank ranksep rankdir b := rfl

/-- C2: `generate` fails (raises, modelled as `none`) exactly when the input
is non-empty and some node's `child_ids` contains an id that is no node's
id; in particular with no dangling reference the error branch is
unreachable. -/
theorem generate_fails_iff_dangling (rank rankdir : Option String) (ranksep : Option ℚ)
    (data : List Behaviour) (ts : Nat) :
    generate rank rankdir ranksep data ts = none ↔
      (data ≠ [] ∧ ∃ b ∈ data, ∃ c ∈ b.child_ids, ∀ p ∈ data, p.own_id ≠ c) := by
  rcases eq_or_ne data [] with rfl | hne
  · simp [generate, get_graph, add_node_to_graph]
  · rw [generate_eq_dite _ _ _ _ _ hne]
    by_cases hall : ∀ b ∈ data, ∀ c ∈ b.child_ids, (buildStates data c).isSome
    · rw [if_pos hall]
      constructor
      · intro h
        exact absurd h (by simp)
      · rintro ⟨-, b, hb, c, hc, hnone⟩
        have h1 := (buildStates_none_iff data c).mpr hnone
        have h2 := hall b hb c hc
        rw [h1] at h2
        simp at h2
    · rw [if_neg hall]
      push_neg at hall
      obtain ⟨b, hb, c, hc, hns⟩ := hall
      have hnone : buildStates data c = none := by
        cases h : buildStates data c with
        | none => rfl
        | some s => rw [h] at hns; simp at hns
      exact ⟨fun _ => ⟨hne, b, hb, c, hc, (buildStates_none_iff data c).mp hnone⟩,
             fun _ => rfl⟩

/-- C3: the colour handed to the backend for a behaviour's visual node is
`status_to_colour(status)` when that yields a colour, otherwise
`type_to_colour(type)` (possibly no colour at all); in particular a
`SEQUENCE` node with `SUCCESS` status gets the success green, not the
sequence orange. -/
theorem node_colour_precedence (rank rankdir : Option String) (ranksep : Option ℚ)
    (data : List Behaviour) (ts : Nat) (g : Graph)
    (hg : generate rank rankdir ranksep data ts = some g)
    (b : Behaviour) (hb : b ∈ data) :
    ({ id := b.own_id, nodelabel := some b.name, shape := some (type_to_shape b.type),
       color := (match status_to_colour b.status with
                 | some c => some c
                 | none => type_to_colour b.type),
       tooltip := some (behaviour_to_tooltip_string b) } : VNode) ∈ g.nodes ∧
    (b.type = SEQUENCE → b.status = SUCCESS →
      ({ id := b.own_id, nodelabel := some b.name, shape := some "box",
         color := some "#00ff00",
         tooltip := some (behaviour_to_tooltip_string b) } : VNode) ∈ g.nodes) := by
  have hne : data ≠ [] := by
    rintro rfl
    exact absurd hb (List.not_mem_nil b)
  rw [generate_eq_dite _ _ _ _ _ hne] at hg
  split_ifs at hg with hall
  · rw [Option.some_inj] at hg
    subst hg
    have hmem : nodeOf b ∈ data.map nodeOf := List.mem_map_of_mem _ hb
    constructor
    · simpa [nodeOf, pyOr_status] using hmem
    · intro ht hs
      have hx : nodeOf b = ⟨b.own_id, some b.name, some "box", some "#00ff00", some (behaviour_to_tooltip_string b)⟩ := by
        simp [nodeOf, ht, hs, type_to_shape, status_to_colour, pyOr,
              SEQUENCE, SUCCESS, INVALID, RUNNING, FAILURE, BEHAVIOUR, SELECTOR]
        decide
      rw [hx] at hmem
      exact hmem

def bC3 : Behaviour :=
  { own_id := "a", name := "r", type := SEQUENCE, status := SUCCESS,
    child_ids := [], class_name := "R", message := "" }

def gC3 : Graph :=
  { rank := none, rankdir := none, ranksep := none,
    nodes := [{ id := "a", nodelabel := some "r", shape := some "box",
                color := some "#00ff00",
                tooltip := some "\"<b>Class Name:</b> R<br><b>Type:</b> Sequence<br><b>Status:</b> Success<br><b>Message:</b> <i>empty</i><br>\"" }],
    edges := [] }

/-- Witness for C3 at a concrete `SEQUENCE`/`SUCCESS` behaviour. -/
theorem node_colour_precedence_witness :
    ({ id := bC3.own_id, nodelabel := some bC3.name, shape := some (type_to_shape bC3.type),
       color := (match status_to_colour bC3.status with
                 | some c => some c
                 | none => type_to_colour bC3.type),
       tooltip := some (behaviour_to_tooltip_string bC3) } : VNode) ∈ gC3.nodes ∧
    (bC3.type = SEQUENCE → bC3.status = SUCCESS →
      ({ id := bC3.own_id, nodelabel := some bC3.name, shape := some "box",
         color := some "#00ff00",
         tooltip := some (behaviour_to_tooltip_string bC3) } : VNode) ∈ gC3.nodes) :=
  node_colour_precedence none none none [bC3] 0 gC3 rfl bC3 (List.mem_cons_self bC3 [])

/-- C7: every edge handed to the backend is coloured from the child's
status: black for `RUNNING`, green for `SUCCESS`, red for `FAILURE`, and
the default light gray otherwise — in particular for `INVALID`. -/
theorem edge_colour_rule (rank rankdir : Option String) (ranksep : Option ℚ)
    (data : List Behaviour) (ts : Nat) (g : Graph)
    (hg : generate rank rankdir ranksep data ts = some g)
    (e : Edge) (he : e ∈ g.edges) :
    ∃ s, buildStates data e.dst = some s ∧
      e.color = (if s = RUNNING then ((0 : Nat), (0 : Nat), (0 : Nat))
                 else if s = SUCCESS then (0, 255, 0)
                 else if s = FAILURE then (255, 0, 0)
                 else (224, 224, 224)) ∧
      (s = INVALID → e.color = (224, 224, 224)) := by
  rcases eq_or_ne data [] with rfl | hne
  · rw [show generate rank rankdir ranksep ([] : List Behaviour) ts =
        some (add_node_to_graph (get_graph rank rankdir ranksep)
          "No behaviour data received" none none none none) from rfl,
      Option.some_inj] at hg
    subst hg
    simp [add_node_to_graph, get_graph] at he
  · rw [generate_eq_dite _ _ _ _ _ hne] at hg
    split_ifs at hg with hall
    · rw [Option.some_inj] at hg
      subst hg
      simp only [edgesOf, List.mem_flatMap, List.mem_map] at he
      obtain ⟨b, hb, c, hc, rfl⟩ := he
      have hs := hall b hb c hc
      obtain ⟨s, hsome⟩ := Option.isSome_iff_exists.mp hs
      refine ⟨s, by simpa using hsome, ?_, ?_⟩
      · simp [hsome, edgeColourOf]
      · intro hI
        subst hI
        simp [hsome, edgeColourOf, INVALID, RUNNING, SUCCESS, FAILURE]

def bC7p : Behaviour :=
  { own_id := "a", name := "p", type := SEQUENCE, status := SUCCESS,
    child_ids := ["b"], class_name := "P", message := "" }

def bC7c : Behaviour :=
  { own_id := "b", name := "c", type := BEHAVIOUR, status := RUNNING,
    child_ids := [], class_name := "C", message := "m" }

def gC7 : Graph :=
  { rank := none, rankdir := none, ranksep := none,
    nodes := [{ id := "a", nodelabel := some "p", shape := some "box",
                color := some "#00ff00",
                tooltip := some "\"<b>Class Name:</b> P<br><b>Type:</b> Sequence<br><b>Status:</b> Success<br><b>Message:</b> <i>empty</i><br>\"" },
              { id := "b", nodelabel := some "c", shape := some "ellipse",
                color := some "#000000",
                tooltip := some "\"<b>Class Name:</b> C<br><b>Type:</b> Behaviour<br><b>Status:</b> Running<br><b>Message:</b> m<br>\"" }],
    edges := [{ src := "a", dst := "b", color := (0, 0, 0) }] }

def eC7 : Edge := { src := "a", dst := "b", color := (0, 0, 0) }

/-- Witness for C7 at a concrete two-node snapshot with a `RUNNING` child. -/
theorem edge_colour_rule_witness :
    ∃ s, buildStates [bC7p, bC7c] eC7.dst = some s ∧
      eC7.color = (if s = RUNNING then ((0 : Nat), (0 : Nat), (0 : Nat))
                   else if s = SUCCESS then (0, 255, 0)
                   else if s = FAILURE then (255, 0, 0)
                   else (224, 224, 224)) ∧
      (s = INVALID → eC7.color = (224, 224, 224)) :=
  edge_colour_rule none none none [bC7p, bC7c] 0 gC7 rfl eC7 (by simp [gC7, eC7])

/-- Counterexample to C1 as stated: at the empty snapshot the closure
hypothesis holds vacuously, yet the built graph has one (placeholder)
visual node while the input has zero nodes, so the graph does not contain
exactly one visual node per input node. -/
theorem generate_empty_not_one_node_per_input :
    (∀ b ∈ ([] : List Behaviour), ∀ c ∈ b.child_ids,
        ∃ p ∈ ([] : List Behaviour), p.own_id = c) ∧
    (generate (some "same") (some "TB") (some (1/5 : ℚ)) ([] : List Behaviour) 0).map
        (fun g => g.nodes.length) = some 1 ∧
    ([] : List Behaviour).length = 0 := by
  refine ⟨by simp, rfl, rfl⟩

/-- C1 (amended: restricted to non-empty snapshots): for every non-empty
snapshot in which every referenced child id is some node's id, `generate`
succeeds and returns a graph with exactly one visual node per input node,
added in input order and carrying the stringified id, the name as label,
the shape from `type_to_shape`, the colour by the status-over-type
precedence and the formatted tooltip, and with exactly one directed edge
per (parent, child-id) pair, parents in input order and children in
`child_ids` order. -/
theorem generate_builds_one_node_per_input (rank rankdir : Option String)
    (ranksep : Option ℚ) (data : List Behaviour) (ts : Nat) (hne : data ≠ [])
    (hclosed : ∀ b ∈ data, ∀ c ∈ b.child_ids, ∃ p ∈ data, p.own_id = c) :
    ∃ g, generate rank rankdir ranksep data ts = some g ∧
      g.nodes = data.map (fun b =>
        { id := b.own_id, nodelabel := some b.name, shape := some (type_to_shape b.type),
          color := pyOr (status_to_colour b.status) (type_to_colour b.type),
          tooltip := some (behaviour_to_tooltip_string b) }) ∧
      g.edges.map (fun e => (e.src, e.dst)) =
        data.flatMap (fun b => b.child_ids.map (fun c => (b.own_id, c))) := by
  have hall : ∀ b ∈ data, ∀ c ∈ b.child_ids, (buildStates data c).isSome := by
    intro b hb c hc
    exact (buildStates_isSome_iff data c).mpr (hclosed b hb c hc)
  refine ⟨_, by rw [generate_eq_dite _ _ _ _ _ hne, if_pos hall], rfl, ?_⟩
  simp only [edgesOf, List.map_flatMap, List.map_map]
  rfl

/-- Witness for C1 (amended) at a concrete two-node snapshot. -/
theorem generate_builds_one_node_per_input_witness :
    ∃ g, generate none none none [bC7p, bC7c] 0 = some g ∧
      g.nodes = [bC7p, bC7c].map (fun b =>
        { id := b.own_id, nodelabel := some b.name, shape := some (type_to_shape b.type),
          color := pyOr (status_to_colour b.status) (type_to_colour b.type),
          tooltip := some (behaviour_to_tooltip_string b) }) ∧
      g.edges.map (fun e => (e.src, e.dst)) =
        [bC7p, bC7c].flatMap (fun b => b.child_ids.map (fun c => (b.own_id, c))) :=
  generate_builds_one_node_per_input none none none [bC7p, bC7c] 0 (by decide) (by decide)

lemma tooltip_field_class_name (b : Behaviour) :
    tooltip_field b "class_name" =
      ("<b>Class Name:</b> " ++
        (if b.class_name.isEmpty then "<i>empty</i>" else b.class_name)) ++ "<br>" := rfl

lemma tooltip_field_type (b : Behaviour) :
    tooltip_field b "type" =
      ("<b>Type:</b> " ++
        (match type_to_string b.type with
         | none => "<i>empty</i>"
         | some s => if s.isEmpty then "<i>empty</i>" else s)) ++ "<br>" := rfl

lemma tooltip_field_status (b : Behaviour) :
    tooltip_field b "status" =
      ("<b>Status:</b> " ++
        (match status_to_string b.status with
         | none => "<i>empty</i>"
         | some s => if s.isEmpty then "<i>empty</i>" else s)) ++ "<br>" := rfl

lemma tooltip_field_message (b : Behaviour) :
    tooltip_field b "message" =
      ("<b>Message:</b> " ++
        (if b.message.isEmpty then "<i>empty</i>" else b.message)) ++ "<br>" := rfl

/-- C8: the tooltip formatter always returns one quoted string containing,
in fixed order, the class name, type, status and message fields, each named
by the attribute with underscores replaced by spaces and words capitalized,
and each empty or unrecognized value replaced by the placeholder text. -/
theorem tooltip_total_structure (b : Behaviour) :
    behaviour_to_tooltip_string b =
      "\"" ++
      "<b>Class Name:</b> " ++
        (if b.class_name.isEmpty then "<i>empty</i>" else b.class_name) ++ "<br>" ++
      "<b>Type:</b> " ++
        (match type_to_string b.type with
         | none => "<i>empty</i>"
         | some s => if s.isEmpty then "<i>empty</i>" else s) ++ "<br>" ++
      "<b>Status:</b> " ++
        (match status_to_string b.status with
         | none => "<i>empty</i>"
         | some s => if s.isEmpty then "<i>empty</i>" else s) ++ "<br>" ++
      "<b>Message:</b> " ++
        (if b.message.isEmpty then "<i>empty</i>" else b.message) ++ "<br>" ++
      "\"" := by
  unfold behaviour_to_tooltip_string
  simp only [List.foldl_cons, List.foldl_nil]
  rw [tooltip_field_class_name, tooltip_field_type, tooltip_field_status,
      tooltip_field_message]
  simp only [String.append_assoc, String.empty_append]

/-- Consistency of the cached fields: whenever a drawing-argument record is
cached, the individually stored configuration fields agree with it.  The
initial state satisfies this vacuously, and `generate_dotcode` re-establishes
it on every call, since the fields are stored exactly when the record is. -/
def Consistent (st : GenState) : Prop :=
  ∀ da, st.last_drawargs = some da →
    st.dotcode_factory = some da.dotcode_factory ∧ st.rank = da.rank ∧
    st.rankdir = some da.rankdir ∧ st.ranksep = some da.ranksep

/-- C4: on every call — first call or not, configuration changed or not,
`force_refresh` set or not — `generate_dotcode` rebuilds the graph from the
currently supplied behaviours via `generate`, using the `rank`, `rankdir`
and `ranksep` supplied in that call, renders it with the backend supplied
in that call, and caches both the rendered result and the configuration. -/
theorem generate_dotcode_rebuilds (st : GenState) (hst : Consistent st) (f : Nat)
    (tree : TreeMsg) (rank : Option String) (ranksep : ℚ) (rankdir : String)
    (force_refresh : Bool) :
    generate_dotcode st f tree rank ranksep rankdir force_refresh =
      (generate rank (some rankdir) (some ranksep) tree.behaviours tree.stamp).map
        (fun g =>
          ({ last_drawargs := some { dotcode_factory := f, rank := rank,
                                     rankdir := rankdir, ranksep := ranksep },
             dotcode := some { factory := f, graph := g }, firstcall := false,
             rank := rank, rankdir := some rankdir, ranksep := some ranksep,
             graph := some g, dotcode_factory := some f },
           { factory := f, graph := g })) := by
  obtain ⟨lda, dc, fc, r0, rd0, rs0, gr0, f0⟩ := st
  by_cases hd : lda = some ({ dotcode_factory := f, rank := rank,
                              rankdir := rankdir, ranksep := ranksep } : DrawArgs)
  · obtain ⟨h1, h2, h3, h4⟩ := hst _ hd
    simp only at h1 h2 h3 h4
    cases fc <;>
      cases hgen : generate rank (some rankdir) (some ranksep) tree.behaviours tree.stamp <;>
        simp [generate_dotcode, hd, h1, h2, h3, h4, hgen]
  · cases fc <;>
      cases hgen : generate rank (some rankdir) (some ranksep) tree.behaviours tree.stamp <;>
        simp [generate_dotcode, hd, hgen]

/-- Witness for C4: the very first call, with `force_refresh = false`, on an
empty snapshot. -/
theorem generate_dotcode_rebuilds_witness :
    generate_dotcode initState 7 { behaviours := [], stamp := 3 } none 0 "TB" false =
      (generate none (some "TB") (some 0) [] 3).map
        (fun g =>
          ({ last_drawargs := some { dotcode_factory := 7, rank := none,
                                     rankdir := "TB", ranksep := 0 },
             dotcode := some { factory := 7, graph := g }, firstcall := false,
             rank := none, rankdir := some "TB", ranksep := some 0,
             graph := some g, dotcode_factory := some 7 },
           { factory := 7, graph := g })) :=
  generate_dotcode_rebuilds initState (fun da h => Option.noConfusion h) 7
    { behaviours := [], stamp := 3 } none 0 "TB" false

/-- C5: from any non-initial cache state, two successive `generate_dotcode`
calls with identical backend, tree and configuration (and
`force_refresh = false`) make the same backend calls — they build the same
graph under the same `get_graph` arguments and render it with the same
backend — return the same rendered description, and leave the same state. -/
theorem project_idempotent (st : GenState) (f : Nat) (tree : TreeMsg)
    (rank : Option String) (ranksep : ℚ) (rankdir : String)
    (hfc : st.firstcall = false) (st1 : GenState) (d1 : Dotcode)
    (h1 : generate_dotcode st f tree rank ranksep rankdir false = some (st1, d1)) :
    generate_dotcode st1 f tree rank ranksep rankdir false = some (st1, d1) := by
  obtain ⟨lda, dc, fc, r0, rd0, rs0, gr0, f0⟩ := st
  simp only at hfc
  subst hfc
  by_cases hd : lda = some ({ dotcode_factory := f, rank := rank,
                              rankdir := rankdir, ranksep := ranksep } : DrawArgs)
  · subst hd
    simp only [generate_dotcode] at h1
    simp at h1
    split at h1
    · simp at h1
    · split at h1
      · simp at h1
      · rename_i hgen
        simp only [Option.some_inj, Prod.mk.injEq] at h1
        obtain ⟨hst1, hd1⟩ := h1
        subst hst1
        subst hd1
        simp [generate_dotcode, hgen]
  · simp [generate_dotcode, hd] at h1
    split at h1
    · simp at h1
    · rename_i hgen
      simp only [Option.some_inj, Prod.mk.injEq] at h1
      obtain ⟨hst1, hd1⟩ := h1
      subst hst1
      subst hd1
      simp [generate_dotcode, hgen]

def stC5 : GenState :=
  { last_drawargs := none, dotcode := none, firstcall := false, rank := none,
    rankdir := none, ranksep := none, graph := none, dotcode_factory := none }

def gC5 : Graph :=
  { rank := none, rankdir := some "TB", ranksep := some 0,
    nodes := [{ id := "No behaviour data received", nodelabel := none, shape := none,
                color := none, tooltip := none }],
    edges := [] }

def dC5 : Dotcode := { factory := 1, graph := gC5 }

def stC5' : GenState :=
  { last_drawargs := some { dotcode_factory := 1, rank := none, rankdir := "TB", ranksep := 0 },
    dotcode := some dC5, firstcall := false, rank := none, rankdir := some "TB",
    ranksep := some 0, graph := some gC5, dotcode_factory := some 1 }

/-- Witness for C5 at a concrete non-initial cache state and empty snapshot. -/
theorem project_idempotent_witness :
    generate_dotcode stC5' 1 { behaviours := [], stamp := 0 } none 0 "TB" false =
      some (stC5', dC5) :=
  project_idempotent stC5 1 { behaviours := [], stamp := 0 } none 0 "TB" rfl stC5' dC5 rfl
